import Mathlib

/-!
Shallow embedding of the `getsimpletool/tools` repository's tool plugins,
with theorems settling the claims about the tool invocation contract and
the individual tools' behaviour.

Each definition is translated from the Python source file named in its
doc comment.  External collaborators (the `simpletool` framework types,
`httpx`, `re`, the filesystem, upstream HTTP APIs) are represented either
by definitions modelled from the specification (marked as such) or by
explicit oracle parameters standing for the external system's behaviour.
-/

/-- Modelled from the spec: the `ContentItem` tagged union of
`simpletool.types` (`TextContent`, `ImageContent`, `ErrorContent`), which is
declared by the external `simpletool` framework and is not under `src/`.
Spec §3: `TextContent { text }`, `ImageContent { image, mime_type }`,
`ErrorContent { code, error }`; every item carries an explicit variant tag. -/
inductive Content where
  | text (text : String)
  | image (image : String) (mimeType : String)
  | error (code : Int) (error : String)
deriving Repr, DecidableEq

/-- Python exceptions relevant to the tools: `httpx.HTTPError` (transport and
status errors), `KeyError`, `ValueError`, and any other `Exception`. -/
inductive PyExn where
  | httpError (msg : String)
  | keyError (msg : String)
  | valueError (msg : String)
  | other (msg : String)
deriving Repr, DecidableEq

/-- Python `str(e)` for the exceptions of `PyExn`. -/
def pyExnStr : PyExn → String
  | .httpError m => m
  | .keyError m => m
  | .valueError m => m
  | .other m => m

/-! ## Word counter (`src/tools/word_counter.py`) -/

/-- Python whitespace characters recognised by `str.split()` with no
separator argument. -/
def isPySpace (c : Char) : Bool :=
  c = ' ' || c = '\t' || c = '\n' || c = '\r' || c = '\x0b' || c = '\x0c'

/-- Helper for `pySplit`: walks the characters, accumulating the current
word (in reverse). -/
def pySplitAux : List Char → List Char → List String
  | [], [] => []
  | [], acc => [String.mk acc.reverse]
  | c :: cs, acc =>
    if isPySpace c then
      match acc with
      | [] => pySplitAux cs []
      | _ :: _ => String.mk acc.reverse :: pySplitAux cs []
    else
      pySplitAux cs (c :: acc)

/-- Python `str.split()` with no arguments: splits on runs of whitespace and
discards empty strings (leading and trailing whitespace produce no words). -/
def pySplit (s : String) : List String :=
  pySplitAux s.data []

/-- `WordCounterTool.run` (word_counter.py lines 16-18):
`word_count = len(arguments["text"].split())`, returned as a single
`TextContent`. -/
def wordCounterRun (text : String) : List Content :=
  [Content.text ("Word count: " ++ toString (pySplit text).length)]

/-- Specification-side count: the number of maximal whitespace-separated
words, counted as the number of positions where a non-whitespace character
is not preceded by a non-whitespace character.  The boolean argument
records whether we are currently inside a word. -/
def countMaximalWords : List Char → Bool → Nat
  | [], _ => 0
  | c :: cs, inWord =>
    if isPySpace c then countMaximalWords cs false
    else (if inWord then 0 else 1) + countMaximalWords cs true

theorem pySplitAux_length (l : List Char) :
    ∀ acc : List Char,
      (pySplitAux l acc).length =
        countMaximalWords l (!acc.isEmpty) + (if acc.isEmpty then 0 else 1) := by
  induction l with
  | nil =>
    intro acc
    cases acc <;> simp [pySplitAux, countMaximalWords]
  | cons c cs ih =>
    intro acc
    by_cases hc : isPySpace c = true
    · cases acc with
      | nil => simp [pySplitAux, countMaximalWords, hc, ih]
      | cons a as => simp [pySplitAux, countMaximalWords, hc, ih]
    · have hc2 : isPySpace c = false := by
        cases h : isPySpace c
        · rfl
        · exact absurd h hc
      cases acc with
      | nil => simp [pySplitAux, countMaximalWords, hc2, ih]; omega
      | cons a as => simp [pySplitAux, countMaximalWords, hc2, ih]

theorem pySplit_length (s : String) :
    (pySplit s).length = countMaximalWords s.data false := by
  simpa using pySplitAux_length s.data []

/-- C10: `WordCounterTool.run` given `{"text": ""}` returns a single
`TextContent` with text `"Word count: 0"`; given
`{"text": "   Too    many   spaces   "}` it returns `"Word count: 3"`; and in
general the reported count equals the number of maximal
whitespace-separated words in the input text. -/
theorem c10_word_counter :
    wordCounterRun "" = [Content.text "Word count: 0"] ∧
    wordCounterRun "   Too    many   spaces   " = [Content.text "Word count: 3"] ∧
    ∀ t : String,
      wordCounterRun t =
        [Content.text ("Word count: " ++ toString (countMaximalWords t.data false))] := by
  refine ⟨by decide, by decide, fun t => ?_⟩
  simp [wordCounterRun, pySplit_length]

/-! ## File edit tool (`src/tools/os_file_edit_tool.py`)

The filesystem is modelled as a map from path to `Option` file contents
(`none` = the path does not exist).  The Python `re` module is external;
`re.sub` is an oracle parameter returning either the substituted string or
the message of a raised `re.error`. -/

/-- Python `str.splitlines()` restricted to `\n` line breaks: like
`splitOn "\n"` but with no trailing empty line and `[]` for the empty
string. -/
def pySplitlines (s : String) : List String :=
  if s = "" then []
  else
    let parts := s.splitOn "\n"
    if parts.getLast? = some "" then parts.dropLast else parts

/-- Python truthiness of an `Optional[str]` value: `None` and `""` are
falsy. -/
def pyTruthyStr : Option String → Bool
  | none => false
  | some s => s ≠ ""

/-- Arguments accepted by `OsFileEditTool.run` after validation of
`InputModel` (os_file_edit_tool.py lines 8-35). -/
structure EditArgs where
  file_path : String
  edit_type : String
  new_content : String
  start_line : Option Int
  end_line : Option Int
  search_pattern : Option String
  replacement_text : Option String

/-- `OsFileEditTool._edit_by_lines` (lines 94-99): raises `ValueError` on
invalid line numbers, otherwise splices `new_content` over lines
`start_line..end_line` and joins with `\n`. -/
def editByLines (lines : List String) (start_line end_line : Int)
    (new_content : String) : Except String String :=
  if start_line < 1 || end_line > (lines.length : Int) || start_line > end_line then
    .error "Invalid line numbers"
  else
    .ok (String.intercalate "\n"
      (lines.take (start_line.toNat - 1) ++ pySplitlines new_content ++
        lines.drop end_line.toNat))

/-- `OsFileEditTool._find_and_replace` (lines 101-105): returns
`re.sub(pattern, replacement, content)`, or on `re.error` the string
`"Invalid regular expression pattern: " ++ str(e)` as the result value. -/
def findAndReplace (reSub : String → String → String → Except String String)
    (content pattern replacement : String) : String :=
  match reSub pattern replacement content with
  | .ok r => r
  | .error e => "Invalid regular expression pattern: " ++ e

/-- `OsFileEditTool.run` (lines 50-92).  The `file_path is None`,
`edit_type is None` and `new_content is None` checks of lines 60, 65 and 68
are unreachable after `InputModel` validation (all three are required
string fields), so the model's fields are plain strings.  Returns the
filesystem after the call together with the content items. -/
def osFileEditRun (reSub : String → String → String → Except String String)
    (fs : String → Option String) (a : EditArgs) :
    (String → Option String) × List Content :=
  match fs a.file_path with
  | none => (fs, [Content.text ("File not found: " ++ a.file_path)])
  | some original_content =>
    let lines := pySplitlines original_content
    let tryResult : Except String String :=
      if a.edit_type = "full" then .ok a.new_content
      else
        match a.start_line, a.end_line with
        | some s, some e => editByLines lines s e a.new_content
        | _, _ =>
          if pyTruthyStr a.search_pattern && pyTruthyStr a.replacement_text then
            .ok (findAndReplace reSub original_content
              (a.search_pattern.getD "") (a.replacement_text.getD ""))
          else
            .error "Invalid partial edit parameters"
    match tryResult with
    | .ok updated_content =>
        (fun p => if p = a.file_path then some updated_content else fs p,
         [Content.text ("File successfully updated: " ++ a.file_path ++ "\n" ++
           updated_content)])
    | .error e => (fs, [Content.text ("Error editing file: " ++ e)])

/-- C7: called on a `file_path` that does not exist, `OsFileEditTool.run`
returns exactly one content item `"File not found: ..."` and performs no
filesystem mutation. -/
theorem c7_missing_file_no_mutation
    (reSub : String → String → String → Except String String)
    (fs : String → Option String) (a : EditArgs)
    (h : fs a.file_path = none) :
    osFileEditRun reSub fs a =
      (fs, [Content.text ("File not found: " ++ a.file_path)]) := by
  simp [osFileEditRun, h]

/-- C7 witness: a concrete filesystem without the requested file. -/
theorem c7_missing_file_no_mutation_witness :
    osFileEditRun (fun _ _ c => .ok c) (fun _ => none)
      { file_path := "/tmp/absent.txt", edit_type := "full",
        new_content := "x", start_line := none, end_line := none,
        search_pattern := none, replacement_text := none } =
      ((fun _ => none), [Content.text "File not found: /tmp/absent.txt"]) :=
  c7_missing_file_no_mutation (fun _ _ c => .ok c) (fun _ => none) _ rfl

/-- C6: on an existing file with `edit_type = "partial"`, no line numbers, a
non-empty `search_pattern` on which `re.sub` raises `re.error`, and a
non-empty `replacement_text`, `OsFileEditTool.run` overwrites the file with
`"Invalid regular expression pattern: ..."` and reports
`"File successfully updated"` rather than an error item. -/
theorem c6_invalid_regex_overwrites_file
    (reSub : String → String → String → Except String String)
    (fs : String → Option String) (a : EditArgs)
    (original msg pat repl : String)
    (hfile : fs a.file_path = some original)
    (htype : a.edit_type = "partial")
    (hstart : a.start_line = none)
    (hpat : a.search_pattern = some pat) (hpat2 : pat ≠ "")
    (hrepl : a.replacement_text = some repl) (hrepl2 : repl ≠ "")
    (hsub : reSub pat repl original = .error msg) :
    (osFileEditRun reSub fs a).1 a.file_path =
        some ("Invalid regular expression pattern: " ++ msg) ∧
    (∀ q, q ≠ a.file_path → (osFileEditRun reSub fs a).1 q = fs q) ∧
    (osFileEditRun reSub fs a).2 =
      [Content.text ("File successfully updated: " ++ a.file_path ++ "\n" ++
        ("Invalid regular expression pattern: " ++ msg))] := by
  have hne : a.edit_type ≠ "full" := by rw [htype]; decide
  simp [osFileEditRun, hfile, hne, hstart, hpat, hrepl, pyTruthyStr, hpat2, hrepl2,
    findAndReplace, hsub]
  exact fun q hq hq2 => absurd hq2 hq

/-- C6 witness: a concrete file `"/tmp/f.txt"` with contents `"hello"`, an
invalid pattern `"("`, and an `re.sub` oracle that raises on it. -/
theorem c6_invalid_regex_overwrites_file_witness :
    ((osFileEditRun (fun _ _ _ => .error "missing ), unterminated subpattern at position 0")
        (fun p => if p = "/tmp/f.txt" then some "hello" else none)
        { file_path := "/tmp/f.txt", edit_type := "partial", new_content := "",
          start_line := none, end_line := none,
          search_pattern := some "(", replacement_text := some "x" }).1 "/tmp/f.txt" =
      some "Invalid regular expression pattern: missing ), unterminated subpattern at position 0") ∧
    ((osFileEditRun (fun _ _ _ => .error "missing ), unterminated subpattern at position 0")
        (fun p => if p = "/tmp/f.txt" then some "hello" else none)
        { file_path := "/tmp/f.txt", edit_type := "partial", new_content := "",
          start_line := none, end_line := none,
          search_pattern := some "(", replacement_text := some "x" }).2 =
      [Content.text ("File successfully updated: /tmp/f.txt\n" ++
        "Invalid regular expression pattern: missing ), unterminated subpattern at position 0")]) := by
  have h := c6_invalid_regex_overwrites_file
    (fun _ _ _ => .error "missing ), unterminated subpattern at position 0")
    (fun p => if p = "/tmp/f.txt" then some "hello" else none)
    { file_path := "/tmp/f.txt", edit_type := "partial", new_content := "",
      start_line := none, end_line := none,
      search_pattern := some "(", replacement_text := some "x" }
    "hello" "missing ), unterminated subpattern at position 0" "(" "x"
    (by decide) rfl rfl rfl (by decide) rfl (by decide) rfl
  exact ⟨h.1, by simpa using h.2.2⟩


/-! ## POSIX path handling (`os.path` as used by the folder tools)

`os.path.normpath`, `os.path.join` and `os.path.abspath` are translated
from CPython's `posixpath` module, which is what the folder tools call on
Linux.  The working directory `cwd` (the value of `os.getcwd()`) is a
parameter. -/

/-- Python `str.startswith`. -/
def pyStartswith (s pre : String) : Bool :=
  pre.data.isPrefixOf s.data

/-- Component-normalisation loop of `posixpath.normpath`: drops `""` and
`"."` components and resolves `".."` against the accumulated components. -/
def normpathComps (initialSlashes : Nat) (comps : List String) : List String :=
  comps.foldl
    (fun newComps comp =>
      if comp = "" || comp = "." then newComps
      else if comp ≠ ".." || (initialSlashes = 0 && newComps = []) ||
          (newComps ≠ [] && newComps.getLast? = some "..") then
        newComps ++ [comp]
      else if newComps ≠ [] then newComps.dropLast
      else newComps)
    []

/-- Number of preserved leading slashes in `posixpath.normpath`: one or two
(POSIX allows `//` to be special), never three or more. -/
def initialSlashesOf (path : String) : Nat :=
  if pyStartswith path "/" then
    if pyStartswith path "//" && !(pyStartswith path "///") then 2 else 1
  else 0

/-- Python `str.split("/")` as used by `posixpath.normpath`: splits at every
slash, keeping empty components. -/
def pySplitSlashAux : List Char → List Char → List String
  | [], acc => [String.mk acc.reverse]
  | c :: cs, acc =>
    if c = '/' then String.mk acc.reverse :: pySplitSlashAux cs []
    else pySplitSlashAux cs (c :: acc)

/-- Python `path.split("/")` on a string. -/
def pySplitSlash (s : String) : List String :=
  pySplitSlashAux s.data []

/-- Python `str.endswith`. -/
def pyEndswith (s suffix : String) : Bool :=
  suffix.data.isSuffixOf s.data

/-- Slash reconstruction and joining step of `posixpath.normpath`. -/
def normpathCore (initialSlashes : Nat) (path : String) : String :=
  let newComps := normpathComps initialSlashes (pySplitSlash path)
  let joined := String.intercalate "/" newComps
  let result := String.mk (List.replicate initialSlashes '/') ++ joined
  if result = "" then "." else result

/-- `posixpath.normpath`: `""` becomes `"."`, otherwise leading slashes are
preserved, components normalised, and an empty result becomes `"."`. -/
def normpath (path : String) : String :=
  if path = "" then "." else normpathCore (initialSlashesOf path) path

/-- `posixpath.join` for two arguments: an absolute second path replaces the
first; otherwise the paths are joined with a `"/"` unless the first is empty
or already ends with one. -/
def posixJoin (a b : String) : String :=
  if pyStartswith b "/" then b
  else if a = "" || pyEndswith a "/" then a ++ b
  else a ++ "/" ++ b

/-- `posixpath.abspath`: relative paths are joined onto the working
directory, then the result is normalised. -/
def abspath (cwd path : String) : String :=
  if pyStartswith path "/" then normpath path
  else normpath (posixJoin cwd path)

theorem pyStartswith_slash_of_data (s : String) (rest : List Char)
    (h : s.data = '/' :: rest) : pyStartswith s "/" = true := by
  unfold pyStartswith
  rw [h]
  simp [List.isPrefixOf]

theorem data_slash_of_pyStartswith (s : String)
    (h : pyStartswith s "/" = true) : ∃ rest, s.data = '/' :: rest := by
  unfold pyStartswith at h
  cases hc : s.data with
  | nil => rw [hc] at h; simp [List.isPrefixOf] at h
  | cons x xs =>
    rw [hc] at h
    simp [List.isPrefixOf] at h
    subst h
    exact ⟨xs, rfl⟩

theorem normpathCore_pos_startsWith (k : Nat) (p : String) :
    pyStartswith (normpathCore (k + 1) p) "/" = true := by
  simp only [normpathCore]
  generalize String.intercalate "/" (normpathComps (k + 1) (pySplitSlash p)) = j
  have hdata : (String.mk (List.replicate (k + 1) '/') ++ j).data =
      '/' :: (List.replicate k '/' ++ j.data) := by
    simp [String.data_append, List.replicate]
  have hne : String.mk (List.replicate (k + 1) '/') ++ j ≠ "" := by
    intro hcontra
    have h2 := congrArg String.data hcontra
    rw [hdata] at h2
    simp at h2
  rw [if_neg hne]
  exact pyStartswith_slash_of_data _ _ hdata

theorem normpath_startsWith_slash (p : String) (h : pyStartswith p "/" = true) :
    pyStartswith (normpath p) "/" = true := by
  have hne : p ≠ "" := by
    intro he
    rw [he] at h
    simp [pyStartswith, List.isPrefixOf] at h
  have hpos : ∃ k, initialSlashesOf p = k + 1 := by
    unfold initialSlashesOf
    rw [if_pos h]
    by_cases h2 : (pyStartswith p "//" && !pyStartswith p "///") = true
    · exact ⟨1, by rw [if_pos h2]⟩
    · exact ⟨0, by rw [if_neg h2]⟩
  obtain ⟨k, hk⟩ := hpos
  rw [normpath, if_neg hne, hk]
  exact normpathCore_pos_startsWith k p

theorem posixJoin_startsWith_slash (cwd p : String)
    (hcwd : pyStartswith cwd "/" = true) :
    pyStartswith (posixJoin cwd p) "/" = true := by
  obtain ⟨rest, hrest⟩ := data_slash_of_pyStartswith cwd hcwd
  unfold posixJoin
  by_cases hb : pyStartswith p "/" = true
  · rw [if_pos hb]; exact hb
  · rw [if_neg hb]
    by_cases hend : (cwd = "" || pyEndswith cwd "/") = true
    · rw [if_pos hend]
      exact pyStartswith_slash_of_data _ _
        (by rw [String.data_append, hrest]; rfl)
    · rw [if_neg hend]
      exact pyStartswith_slash_of_data _ _
        (by rw [String.data_append, String.data_append, hrest]; rfl)

/-- Any `os.path.abspath` result starts with `"/"` when the working
directory does (which `os.getcwd()` guarantees on POSIX). -/
theorem abspath_startsWith_slash (cwd p : String)
    (hcwd : pyStartswith cwd "/" = true) :
    pyStartswith (abspath cwd p) "/" = true := by
  unfold abspath
  by_cases hp : pyStartswith p "/" = true
  · rw [if_pos hp]
    exact normpath_startsWith_slash p hp
  · rw [if_neg hp]
    exact normpath_startsWith_slash _ (posixJoin_startsWith_slash cwd p hcwd)

/-! ## Delete folders tool (`src/tools/os_delete_folders_tool.py`) -/

/-- Exceptions raised by the OS deletion and creation primitives:
`PermissionError`, other `OSError`, or any other `Exception`. -/
inductive OsErr where
  | permission
  | osError (msg : String)
  | other (msg : String)
deriving Repr, DecidableEq

/-- Filesystem oracle for `OsDeleteFoldersTool.run`: existence and
directory tests, directory listing, and the two deletion primitives
(`shutil.rmtree`, `os.rmdir`), which may raise. -/
structure DeleteFs where
  pathExists : String → Bool
  isDir : String → Bool
  listdir : String → List String
  rmtree : String → Except OsErr Unit
  rmdir : String → Except OsErr Unit

/-- Unsafe-path list of `OsDeleteFoldersTool._is_safe_path` (lines 38-47);
`home` is `os.path.expanduser("~")`. -/
def unsafePaths (home : String) : List String :=
  ["/", "/home", "/etc", "/usr", "/var", "/bin", "/sbin", home]

/-- `OsDeleteFoldersTool._is_safe_path` (lines 29-53): normalises the path
and rejects it when it starts with (or equals) an entry of the unsafe-path
list. -/
def isSafePath (cwd home : String) (path : String) : Bool :=
  let absPath := abspath cwd path
  !((unsafePaths home).any fun safePath =>
      pyStartswith absPath safePath || absPath = safePath)

/-- Body of the loop of `OsDeleteFoldersTool.run` (lines 64-103) for one
path: the status message appended to `results`, paired with the list of
paths on which a deletion primitive (`shutil.rmtree` or `os.rmdir`) was
invoked. -/
def deleteStatusLine (cwd home : String) (fs : DeleteFs) (force : Bool)
    (path : String) : String × List String :=
  let normalized := normpath path
  let absolute := abspath cwd normalized
  if !isSafePath cwd home absolute then
    ("Unsafe deletion prevented for path: " ++ path, [])
  else if !fs.pathExists absolute then
    ("Path does not exist: " ++ path, [])
  else if !fs.isDir absolute then
    ("Path is not a directory: " ++ path, [])
  else if force then
    match fs.rmtree absolute with
    | .ok _ => ("Forcefully deleted folder: " ++ path, [absolute])
    | .error .permission =>
        ("Permission denied: Unable to delete folder " ++ path, [absolute])
    | .error (.osError m) =>
        ("Error deleting folder " ++ path ++ ": " ++ m, [absolute])
    | .error (.other m) =>
        ("Unexpected error deleting folder " ++ path ++ ": " ++ m, [absolute])
  else if (fs.listdir absolute).isEmpty then
    match fs.rmdir absolute with
    | .ok _ => ("Successfully deleted empty folder: " ++ path, [absolute])
    | .error .permission =>
        ("Permission denied: Unable to delete folder " ++ path, [absolute])
    | .error (.osError m) =>
        ("Error deleting folder " ++ path ++ ": " ++ m, [absolute])
    | .error (.other m) =>
        ("Unexpected error deleting folder " ++ path ++ ": " ++ m, [absolute])
  else
    ("Folder not empty, deletion skipped: " ++ path ++
      ". Use 'force=true' to delete non-empty folders.", [])

/-- `OsDeleteFoldersTool.run` (lines 55-105): one status line per path,
joined with newlines into a single `TextContent`; the second component
collects every path on which a deletion primitive was invoked. -/
def osDeleteFoldersRun (cwd home : String) (fs : DeleteFs)
    (folder_paths : List String) (force : Bool) : List Content × List String :=
  if folder_paths.isEmpty then
    ([Content.text "No folder paths provided"], [])
  else
    let results := folder_paths.map (deleteStatusLine cwd home fs force)
    ([Content.text (String.intercalate "\n" (results.map Prod.fst))],
     (results.map Prod.snd).flatten)

theorem isSafePath_false (cwd home p : String)
    (h : pyStartswith cwd "/" = true) : isSafePath cwd home p = false := by
  unfold isSafePath unsafePaths
  have habs := abspath_startsWith_slash cwd p h
  simp [habs]

theorem deleteStatusLine_unsafe (cwd home : String) (fs : DeleteFs)
    (force : Bool) (p : String) (h : pyStartswith cwd "/" = true) :
    deleteStatusLine cwd home fs force p =
      ("Unsafe deletion prevented for path: " ++ p, []) := by
  unfold deleteStatusLine
  simp [isSafePath_false cwd home _ h]

/-- C3: with an absolute working directory (as on any POSIX system), every
call of `OsDeleteFoldersTool.run` deletes nothing — `_is_safe_path` rejects
every path because every absolute path starts with `"/"`, an entry of the
unsafe-path list — and, for a non-empty path list, `run` reports
`"Unsafe deletion prevented for path: ..."` for each path in order. -/
theorem c3_delete_folders_never_deletes (cwd home : String) (fs : DeleteFs)
    (folder_paths : List String) (force : Bool)
    (h : pyStartswith cwd "/" = true) :
    (osDeleteFoldersRun cwd home fs folder_paths force).2 = [] ∧
    (∀ p, isSafePath cwd home p = false) ∧
    (folder_paths ≠ [] →
      osDeleteFoldersRun cwd home fs folder_paths force =
        ([Content.text (String.intercalate "\n"
          (folder_paths.map fun p => "Unsafe deletion prevented for path: " ++ p))],
         [])) := by
  have hline : ∀ p, deleteStatusLine cwd home fs force p =
      ("Unsafe deletion prevented for path: " ++ p, []) :=
    fun p => deleteStatusLine_unsafe cwd home fs force p h
  have hres : folder_paths.map (deleteStatusLine cwd home fs force) =
      folder_paths.map
        (fun p => ("Unsafe deletion prevented for path: " ++ p, ([] : List String))) :=
    List.map_congr_left (fun p _ => hline p)
  have hjoin : ∀ l : List String, (l.map fun _ => ([] : List String)).flatten = [] := by
    intro l
    induction l with
    | nil => simp
    | cons a as ih => simp [ih]
  have h2comp : (Prod.snd ∘ fun p : String =>
      ("Unsafe deletion prevented for path: " ++ p, ([] : List String))) =
      fun _ => ([] : List String) := rfl
  have h1comp : (Prod.fst ∘ fun p : String =>
      ("Unsafe deletion prevented for path: " ++ p, ([] : List String))) =
      fun p => "Unsafe deletion prevented for path: " ++ p := rfl
  refine ⟨?_, fun p => isSafePath_false cwd home p h, fun hne => ?_⟩
  · by_cases hempty : folder_paths.isEmpty = true
    · unfold osDeleteFoldersRun
      rw [if_pos hempty]
    · unfold osDeleteFoldersRun
      rw [if_neg hempty]
      simp only [hres, List.map_map, h2comp]
      exact hjoin folder_paths
  · have hempty : ¬folder_paths.isEmpty = true := by simpa using hne
    unfold osDeleteFoldersRun
    rw [if_neg hempty]
    simp only [hres, List.map_map, h1comp, h2comp]
    rw [hjoin folder_paths]

/-- C3 witness: concrete working directory `"/root"`, home `"/root"`, a
filesystem oracle on which everything exists, and two target paths. -/
theorem c3_delete_folders_never_deletes_witness :
    pyStartswith "/root" "/" = true ∧
    osDeleteFoldersRun "/root" "/root"
        { pathExists := fun _ => true, isDir := fun _ => true,
          listdir := fun _ => [], rmtree := fun _ => .ok (),
          rmdir := fun _ => .ok () }
        ["/tmp/scratch", "data"] true =
      ([Content.text ("Unsafe deletion prevented for path: /tmp/scratch\n" ++
        "Unsafe deletion prevented for path: data")], []) := by
  refine ⟨by decide, ?_⟩
  have h := c3_delete_folders_never_deletes "/root" "/root"
    { pathExists := fun _ => true, isDir := fun _ => true,
      listdir := fun _ => [], rmtree := fun _ => .ok (),
      rmdir := fun _ => .ok () }
    ["/tmp/scratch", "data"] true (by decide)
  have h2 := h.2.2 (by decide)
  rw [h2]
  rfl

/-! ## Create folders tool (`src/tools/os_create_folders_tool.py`) -/

/-- Characters rejected by `OsCreateFoldersTool.run` (line 37): the string
literal `'<>:"|?*'`. -/
def disallowedChars : List Char := ['<', '>', ':', '"', '|', '?', '*']

/-- Body of the loop of `OsCreateFoldersTool.run` (lines 30-48) for one
path: normalise, validate characters of the absolute path, then call
`os.makedirs` (the `mkdirs` oracle, which may raise). -/
def createStatusLine (cwd : String) (mkdirs : String → Except OsErr Unit)
    (path : String) : String :=
  let normalized := normpath path
  let absolute := abspath cwd normalized
  if !(absolute.data.all fun c => !disallowedChars.contains c) then
    "Invalid characters in path: " ++ path
  else
    match mkdirs absolute with
    | .ok _ => "Successfully created folder: " ++ path
    | .error .permission => "Permission denied: Unable to create folder " ++ path
    | .error (.osError m) => "Error creating folder " ++ path ++ ": " ++ m
    | .error (.other m) => "Error creating folder " ++ path ++ ": " ++ m

/-- `OsCreateFoldersTool.run` (lines 23-50): one status line per path,
joined with newlines into a single `TextContent`. -/
def osCreateFoldersRun (cwd : String) (mkdirs : String → Except OsErr Unit)
    (folder_paths : List String) : List Content :=
  if folder_paths.isEmpty then
    [Content.text "No folder paths provided"]
  else
    [Content.text (String.intercalate "\n"
      (folder_paths.map (createStatusLine cwd mkdirs)))]

/-- C9: given one path whose absolute form is clean and on which
`os.makedirs` succeeds, and one path whose absolute form contains a
disallowed character, `OsCreateFoldersTool.run` returns one status line per
input path — success and failure respectively — in input order, in both
orders of the input list; in general each path yields its own status line
independently of the others, so one failure never aborts the batch. -/
theorem c9_create_folders_batch (cwd : String)
    (mkdirs : String → Except OsErr Unit) (good bad : String)
    (hgood : ((abspath cwd (normpath good)).data.all
      fun c => !disallowedChars.contains c) = true)
    (hmk : mkdirs (abspath cwd (normpath good)) = .ok ())
    (hbad : ((abspath cwd (normpath bad)).data.all
      fun c => !disallowedChars.contains c) = false) :
    osCreateFoldersRun cwd mkdirs [good, bad] =
      [Content.text (("Successfully created folder: " ++ good) ++ "\n" ++
        ("Invalid characters in path: " ++ bad))] ∧
    osCreateFoldersRun cwd mkdirs [bad, good] =
      [Content.text (("Invalid characters in path: " ++ bad) ++ "\n" ++
        ("Successfully created folder: " ++ good))] ∧
    (∀ paths : List String, paths ≠ [] →
      osCreateFoldersRun cwd mkdirs paths =
        [Content.text (String.intercalate "\n"
          (paths.map (createStatusLine cwd mkdirs)))]) := by
  have hgoodline : createStatusLine cwd mkdirs good =
      "Successfully created folder: " ++ good := by
    unfold createStatusLine
    simp only [hgood, Bool.not_true, Bool.false_eq_true, if_false, hmk]
  have hbadline : createStatusLine cwd mkdirs bad =
      "Invalid characters in path: " ++ bad := by
    unfold createStatusLine
    simp only [hbad, Bool.not_false, if_true]
  refine ⟨?_, ?_, fun paths hne => ?_⟩
  · simp only [osCreateFoldersRun, List.isEmpty_cons, Bool.false_eq_true, if_false,
      List.map_cons, List.map_nil, hgoodline, hbadline]
    simp [String.intercalate, String.intercalate.go]
  · simp only [osCreateFoldersRun, List.isEmpty_cons, Bool.false_eq_true, if_false,
      List.map_cons, List.map_nil, hgoodline, hbadline]
    simp [String.intercalate, String.intercalate.go]
  · unfold osCreateFoldersRun
    rw [if_neg (by simpa using hne)]

/-- C9 witness: paths `"/tmp/newdir"` (clean) and `"/tmp/bad?dir"`
(contains `?`) with an `os.makedirs` oracle that always succeeds. -/
theorem c9_create_folders_batch_witness :
    osCreateFoldersRun "/root" (fun _ => .ok ()) ["/tmp/newdir", "/tmp/bad?dir"] =
      [Content.text ("Successfully created folder: /tmp/newdir\n" ++
        "Invalid characters in path: /tmp/bad?dir")] := by
  have h := c9_create_folders_batch "/root" (fun _ => .ok ())
    "/tmp/newdir" "/tmp/bad?dir" (by decide) rfl (by decide)
  rw [h.1]
  rfl

/-! ## Brave web search tool (`src/tools/web_brave_web_search.py`)

The upstream behaviour of `httpx` and the Brave API is an oracle: a list of
outcomes, one consumed per upstream request.  `client.get` either raises a
transport error or returns a response with a status code, headers and a
body; `data.get("web", {}).get("results", [])` is modelled by the
`webResults` field (missing keys yield `[]`). -/

/-- One entry of `data["web"]["results"]` as used by lines 87-95. -/
structure BraveResult where
  title : String
  description : String
  url : String
deriving Repr, DecidableEq

/-- Behaviour of one upstream `client.get` call. -/
inductive BraveOutcome where
  | raiseTransport (msg : String)
  | response (status : Nat) (retryAfter : Option String) (text : String)
      (webResults : List BraveResult)
deriving Repr, DecidableEq

/-- `int(response.headers.get("Retry-After", 1))` (line 77): the default `1`
parses trivially; a non-numeric header value raises `ValueError`. -/
def parseRetryAfter : Option String → Except PyExn Int
  | none => .ok 1
  | some s =>
    match s.toInt? with
    | some n => .ok n
    | none => .error (.valueError ("invalid literal for int() with base 10: " ++ s))

/-- Formatting of one search result (lines 87-95). -/
def braveFormat (r : BraveResult) : Content :=
  Content.text ("Title: " ++ r.title ++ "\n" ++
    "Description: " ++ r.description ++ "\n" ++
    "URL: " ++ r.url)

/-- Lines 47-95 of `WebBraveWebSearchTool.run` with the API key present.
There is no `try`/`except` anywhere in this `run`: a raised exception is an
`Except.error` escaping the tool.  Line 79 (`return await self.run(arguments)`
after a 429 and the `Retry-After` sleep) re-enters the full `run`; since the
environment is unchanged the key check passes again, so the re-entry is the
recursion on the remaining upstream outcomes.  The second component counts
the upstream requests issued. -/
def braveRunBody : List BraveOutcome → Except PyExn (List Content) × Nat
  | [] => (.error (.other "upstream oracle exhausted"), 0)
  | o :: rest =>
    match o with
    | .raiseTransport msg => (.error (.httpError msg), 1)
    | .response status retryAfter text results =>
      if status = 429 then
        match parseRetryAfter retryAfter with
        | .error e => (.error e, 1)
        | .ok _ =>
          let r := braveRunBody rest
          (r.1, r.2 + 1)
      else if status ≠ 200 then
        (.ok [Content.error (status : Int)
          ("Brave API error: " ++ toString status ++ " " ++ text)], 1)
      else
        (.ok (results.map braveFormat), 1)

/-- `WebBraveWebSearchTool.run` (lines 42-95): the key check of lines 43-45
followed by `braveRunBody`.  `hasKey` is whether `get_env` found
`BRAVE_API_KEY`. -/
def braveRun (hasKey : Bool) (outcomes : List BraveOutcome) :
    Except PyExn (List Content) × Nat :=
  if !hasKey then
    (.ok [Content.text "Missing required BRAVE_API_KEY environment variables"], 0)
  else
    braveRunBody outcomes

/-! ## DuckDuckGo search tool (`src/tools/web_duckduckgo_search.py`)

`DuckDuckGoSearchResults.arun` is an oracle returning the result list or
raising; `sanitize_text` (html.unescape, unidecode, strip — all external
libraries) is an oracle function on strings. -/

/-- One entry of the DuckDuckGo result list (lines 63-65); `result.get`
with a `""` default makes the fields total. -/
structure DdgResult where
  title : String
  link : String
  snippet : String
deriving Repr, DecidableEq

/-- `WebDuckduckgoSearchTool.run` (lines 34-76): empty query short-circuit,
then the searched results filtered to those with some non-empty sanitized
field, each formatted as a `TextContent`; any exception is caught and
reported as a single `TextContent`. -/
def ddgRun (sanitize : String → String)
    (search : Except PyExn (List DdgResult)) (query : String) : List Content :=
  if query = "" then [Content.text "Missing required argument: query"]
  else
    match search with
    | .error e => [Content.text ("Error performing search: " ++ pyExnStr e)]
    | .ok search_results =>
      search_results.filterMap fun r =>
        let title := sanitize r.title
        let link := sanitize r.link
        let snippet := sanitize r.snippet
        if title ≠ "" || link ≠ "" || snippet ≠ "" then
          some (Content.text ("Title: " ++ title ++ "\nLink: " ++ link ++
            "\nSnippet: " ++ snippet ++ "\n\n"))
        else none

/-! ## US current weather tool (`src/tools/weather_us_current.py`)

Geopy and the two NWS HTTP requests are oracles.  Coordinates and
temperatures are modelled as integers and rationals; the claim settled
against this tool concerns exception flow, not numerics.  A `none` in an
oracle's payload models a missing JSON key (Python `KeyError`). -/

/-- One entry of `forecast_data["properties"]["periods"]` (lines 116-130). -/
structure ForecastPeriod where
  temperature : Int
  temperatureUnit : String
  windSpeed : String
  windDirection : String
  shortForecast : String
  detailedForecast : String

/-- External behaviour for one `WeatherUSCurrentTool.run` call: `_geocode_city`
(raises `ValueError` on every failure it catches, but any exception is
possible), the points request (returning `data["properties"]["forecast"]` or
`none` for a missing key) and the forecast request (returning the periods
list or `none`). -/
structure WeatherOracle where
  geocode : String → Except PyExn (Int × Int)
  getPoints : Int → Int → Except PyExn (Option String)
  getForecast : String → Except PyExn (Option (List ForecastPeriod))

/-- Validated arguments of `WeatherUSCurrentTool.run` (all three fields are
optional with `None` defaults). -/
structure WeatherArgs where
  city : Option String
  latitude : Option Int
  longitude : Option Int

/-- Python `x or ""` for an optional string. -/
def pyOrEmptyStr (s : Option String) : String :=
  if pyTruthyStr s then s.getD "" else ""

/-- Python `round(q, 1)` on the Celsius conversion of line 122 (ties behave
as round-half-away here; the tie case is immaterial to the claims). -/
def roundTo1 (q : ℚ) : ℚ :=
  (round (q * 10) : ℚ) / 10

/-- The `weather_info` f-string of lines 124-131. -/
def weatherInfoText (args : WeatherArgs) (lat lon : Int)
    (current : ForecastPeriod) : String :=
  let temp_c : Option ℚ :=
    if current.temperatureUnit = "F" then
      some (roundTo1 (((current.temperature : ℚ) - 32) * 5 / 9))
    else none
  "Location: " ++ pyOrEmptyStr args.city ++ " (" ++ toString lat ++ ", " ++
    toString lon ++ ")\n" ++
  "Temperature: " ++ toString current.temperature ++ "°" ++
    current.temperatureUnit ++ " " ++
    (match temp_c with
     | some c => "(" ++ toString c ++ "°C)"
     | none => "") ++ "\n" ++
  "Wind: " ++ current.windSpeed ++ " " ++ current.windDirection ++ "\n" ++
  "Forecast: " ++ current.shortForecast ++ "\n" ++
  "Detailed Forecast: " ++ current.detailedForecast

/-- Body of the `try` block of `WeatherUSCurrentTool.run` (lines 89-133):
geocode if a city is given and a coordinate is missing, bail out early when
coordinates are still missing, then the two NWS requests, `periods[0]`
(raising `IndexError`, an unnamed `Exception`, when empty), and the
formatted single `TextContent`. -/
def weatherUSCurrentBody (args : WeatherArgs) (o : WeatherOracle) :
    Except PyExn (List Content) :=
  match
    (if pyTruthyStr args.city && (args.latitude.isNone || args.longitude.isNone) then
      match o.geocode (args.city.getD "") with
      | .ok (la, lo) => .ok (some la, some lo)
      | .error e => .error e
    else .ok (args.latitude, args.longitude) :
      Except PyExn (Option Int × Option Int))
  with
  | .error e => .error e
  | .ok (lat?, lon?) =>
    match lat?, lon? with
    | some lat, some lon =>
      (match o.getPoints lat lon with
      | .error e => .error e
      | .ok pointsForecastUrl =>
        match pointsForecastUrl with
        | none => .error (.keyError "forecast")
        | some forecastUrl =>
          match o.getForecast forecastUrl with
          | .error e => .error e
          | .ok periods? =>
            match periods? with
            | none => .error (.keyError "periods")
            | some periods =>
              match periods.head? with
              | none => .error (.other "list index out of range")
              | some current =>
                .ok [Content.text (weatherInfoText args lat lon current)])
    | _, _ => .ok [Content.text "Error: Either city or latitude/longitude must be provided"]

/-- The `except` clauses of lines 135-142: every exception becomes a
`TextContent` message. -/
def weatherUSCurrentHandle : PyExn → String
  | .httpError m => "HTTP Error: " ++ m
  | .keyError m => "Data parsing error: " ++ m
  | .valueError m => "Geocoding error: " ++ m
  | .other m => "Unexpected error: " ++ m

/-- `WeatherUSCurrentTool.run` (lines 88-142): the whole body is wrapped in
`try`/`except`, so every raised exception is converted to a `TextContent`. -/
def weatherUSCurrentRun (args : WeatherArgs) (o : WeatherOracle) : List Content :=
  match weatherUSCurrentBody args o with
  | .ok l => l
  | .error e => [Content.text (weatherUSCurrentHandle e)]

theorem weatherUSCurrentBody_ok (args : WeatherArgs) (o : WeatherOracle)
    (l : List Content) (h : weatherUSCurrentBody args o = .ok l) :
    ∃ s, l = [Content.text s] := by
  unfold weatherUSCurrentBody at h
  repeat' split at h
  all_goals simp_all
  all_goals exact ⟨_, h.symm⟩

/-- C1 counterexample: with the API key present and an upstream transport
error on the `client.get` of line 74, `WebBraveWebSearchTool.run` does not
return a content sequence — the `httpx` exception escapes the tool
boundary (there is no `try`/`except` in this `run`). -/
theorem c1_brave_transport_error_escapes :
    (braveRun true [BraveOutcome.raiseTransport "Connection refused"]).1 =
      .error (PyExn.httpError "Connection refused") := rfl

/-- C1 amended: `WeatherUSCurrentTool.run` converts every internal failure
into a single `TextContent` — for every oracle behaviour it returns exactly
one text item and never lets an exception escape — but the guarantee does
not hold for every tool: `WebBraveWebSearchTool.run` propagates upstream
transport errors past the tool boundary unchanged. -/
theorem c1_weather_catches_brave_does_not :
    (∀ (args : WeatherArgs) (o : WeatherOracle),
      ∃ s, weatherUSCurrentRun args o = [Content.text s]) ∧
    (∀ (msg : String) (rest : List BraveOutcome),
      (braveRun true (BraveOutcome.raiseTransport msg :: rest)).1 =
        .error (PyExn.httpError msg)) := by
  constructor
  · intro args o
    unfold weatherUSCurrentRun
    cases hb : weatherUSCurrentBody args o with
    | ok l =>
      obtain ⟨s, hs⟩ := weatherUSCurrentBody_ok args o l hb
      exact ⟨s, hs⟩
    | error e => exact ⟨weatherUSCurrentHandle e, rfl⟩
  · intro msg rest
    rfl

/-- C2 counterexample: two upstream 429 responses followed by a 200 make
`WebBraveWebSearchTool.run` issue three upstream requests — more than the
two (one initial plus at most one retry) that the claim allows. -/
theorem c2_brave_retries_more_than_once :
    (braveRun true [BraveOutcome.response 429 none "" [],
      BraveOutcome.response 429 none "" [],
      BraveOutcome.response 200 none "" []]).2 = 3 ∧ ¬(3 ≤ 2) := by
  exact ⟨rfl, by decide⟩

/-- C2 amended: on a 429 response `run` waits the `Retry-After` delay and
retries by re-entering itself (line 79), with no bound at all: for every
number `k` of consecutive upstream 429 responses before a 200, the tool
issues `k + 1` upstream requests and finally returns the 200 results. -/
theorem c2_brave_retry_unbounded (k : Nat) (results : List BraveResult) :
    braveRun true
        (List.replicate k (BraveOutcome.response 429 none "" []) ++
          [BraveOutcome.response 200 none "" results]) =
      (.ok (results.map braveFormat), k + 1) := by
  induction k with
  | zero => rfl
  | succ n ih =>
    show braveRunBody _ = _
    rw [List.replicate_succ, List.cons_append]
    simp only [braveRunBody, parseRetryAfter]
    have ihb : braveRunBody
        (List.replicate n (BraveOutcome.response 429 none "" []) ++
          [BraveOutcome.response 200 none "" results]) =
        (.ok (results.map braveFormat), n + 1) := ih
    rw [ihb]
    simp

/-- C4 counterexample: a valid query for which the upstream search yields
zero usable results makes both `WebBraveWebSearchTool.run` (200 response,
empty result list) and `WebDuckduckgoSearchTool.run` (successful search,
empty result list) return the empty content sequence, not at least one
item. -/
theorem c4_zero_results_zero_items :
    (braveRun true [BraveOutcome.response 200 none "" []]).1 = .ok [] ∧
    ddgRun id (.ok []) "lean theorem prover" = [] := ⟨rfl, rfl⟩

theorem ddg_filterMap_length (sanitize : String → String) (rs : List DdgResult) :
    (rs.filterMap fun r =>
      let title := sanitize r.title
      let link := sanitize r.link
      let snippet := sanitize r.snippet
      if title ≠ "" || link ≠ "" || snippet ≠ "" then
        some (Content.text ("Title: " ++ title ++ "\nLink: " ++ link ++
          "\nSnippet: " ++ snippet ++ "\n\n"))
      else none).length =
    (rs.filter fun r =>
      sanitize r.title ≠ "" || sanitize r.link ≠ "" || sanitize r.snippet ≠ "").length := by
  induction rs with
  | nil => rfl
  | cons r rest ih =>
    by_cases hr : (sanitize r.title ≠ "" || sanitize r.link ≠ "" ||
        sanitize r.snippet ≠ "") = true
    · simp only [List.filterMap_cons, List.filter_cons, hr, if_pos hr]
      simpa using ih
    · simp only [List.filterMap_cons, List.filter_cons, hr, if_neg hr]
      simpa [hr] using ih

/-- C4 amended: every failure path returns exactly one content item, and a
successful upstream search returns one item per usable result — which is
zero items when the upstream yields zero usable results.  Specifically: a
DuckDuckGo search exception yields one text item; a successful DuckDuckGo
search yields one item per result with a non-empty sanitized field; a Brave
non-200/non-429 response yields one error item; and a Brave 200 response
yields one item per upstream result. -/
theorem c4_content_counts :
    (∀ (san : String → String) (e : PyExn) (q : String), q ≠ "" →
      ddgRun san (.error e) q =
        [Content.text ("Error performing search: " ++ pyExnStr e)]) ∧
    (∀ (san : String → String) (rs : List DdgResult) (q : String), q ≠ "" →
      (ddgRun san (.ok rs) q).length =
        (rs.filter fun r =>
          san r.title ≠ "" || san r.link ≠ "" || san r.snippet ≠ "").length) ∧
    (∀ (status : Nat) (ra : Option String) (text : String)
        (results : List BraveResult) (rest : List BraveOutcome),
      status ≠ 429 → status ≠ 200 →
      (braveRun true (BraveOutcome.response status ra text results :: rest)).1 =
        .ok [Content.error (status : Int)
          ("Brave API error: " ++ toString status ++ " " ++ text)]) ∧
    (∀ (ra : Option String) (text : String) (results : List BraveResult)
        (rest : List BraveOutcome),
      (braveRun true (BraveOutcome.response 200 ra text results :: rest)).1 =
        .ok (results.map braveFormat)) := by
  refine ⟨fun san e q hq => ?_, fun san rs q hq => ?_,
    fun status ra text results rest h429 h200 => ?_, fun ra text results rest => ?_⟩
  · simp [ddgRun, hq]
  · simp only [ddgRun, if_neg hq]
    exact ddg_filterMap_length san rs
  · show (braveRunBody _).1 = _
    simp only [braveRunBody, if_neg h429, if_pos h200]
  · rfl

/-- C4 witness: the amended statement applied at concrete failure and
success inputs. -/
theorem c4_content_counts_witness :
    ddgRun id (.error (PyExn.other "boom")) "q" =
      [Content.text "Error performing search: boom"] ∧
    (ddgRun id (.ok [⟨"t", "l", "s"⟩, ⟨"", "", ""⟩]) "q").length = 1 ∧
    (braveRun true [BraveOutcome.response 500 none "oops" []]).1 =
      .ok [Content.error 500 "Brave API error: 500 oops"] ∧
    (braveRun true [BraveOutcome.response 200 none "" [⟨"t", "d", "u"⟩]]).1 =
      .ok [Content.text "Title: t\nDescription: d\nURL: u"] := by
  refine ⟨c4_content_counts.1 id (PyExn.other "boom") "q" (by decide), ?_, ?_, ?_⟩
  · rw [c4_content_counts.2.1 id [⟨"t", "l", "s"⟩, ⟨"", "", ""⟩] "q" (by decide)]
    rfl
  · rw [c4_content_counts.2.2.1 500 none "oops" [] [] (by decide) (by decide)]
    rfl
  · rw [c4_content_counts.2.2.2 none "" [⟨"t", "d", "u"⟩] []]
    rfl

/-! ## Rate limiting of the Brave tool (web_brave_web_search.py lines 7-9,
47-53, 73-74)

Cooperative-async model in whole seconds of logical time.  Each invocation
of `run` is a task: it reads `LAST_REQUEST_TIME` and either (atomically, no
await point in between) stamps it and proceeds, or computes a sleep and
suspends; after waking it stamps `LAST_REQUEST_TIME`; the upstream request
(`client.get`, reached through the awaited `AsyncClient` context entry) is
a separate step, so other tasks may interleave before it.  A scheduler is a
list of actions: run one task's next step, or advance the clock. -/

/-- `RATE_LIMIT = 1` request per second (line 8). -/
def RATE_LIMIT : Nat := 1

/-- The minimum spacing `1 / RATE_LIMIT` of line 51, in whole seconds. -/
def minInterval : Nat := 1 / RATE_LIMIT

/-- Program counter of one `run` invocation with respect to the shared
rate-limit state. -/
inductive RLTask where
  | start
  | sleeping (wake : Nat)
  | ready
  | done
deriving Repr, DecidableEq

/-- Shared state: the clock, the module-global `LAST_REQUEST_TIME`, the
tasks, and the timestamps of the upstream requests issued so far. -/
structure RLState where
  now : Nat
  last : Option Nat
  tasks : List RLTask
  requests : List Nat
deriving Repr, DecidableEq

/-- One cooperative step of task `i`: lines 48-53 (read, optional sleep,
stamp) and line 74 (issue the upstream request).  With no stored timestamp,
or an elapsed time of at least the interval, the check and the stamp are
atomic (no await separates lines 49 and 53 in that case); a sleeping task
may resume at or any time after its wake time; the request is issued in a
later step than the stamp (the client context entry of line 73 is an await
point). -/
def rlTaskStep (s : RLState) (i : Nat) : Option RLState :=
  match s.tasks.get? i with
  | none => none
  | some pc =>
    match pc with
    | .start =>
      match s.last with
      | none => some { s with last := some s.now, tasks := s.tasks.set i .ready }
      | some t =>
        if s.now - t < minInterval then
          some { s with tasks := s.tasks.set i (.sleeping (t + minInterval)) }
        else
          some { s with last := some s.now, tasks := s.tasks.set i .ready }
    | .sleeping w =>
      if w ≤ s.now then
        some { s with last := some s.now, tasks := s.tasks.set i .ready }
      else none
    | .ready =>
      some { s with requests := s.requests ++ [s.now], tasks := s.tasks.set i .done }
    | .done => none

/-- A scheduler decision: advance task `i` by one step, or let one second
pass. -/
inductive RLAction where
  | work (i : Nat)
  | tick
deriving Repr, DecidableEq

/-- Execute a schedule; a disabled action leaves the state unchanged. -/
def rlExec : RLState → List RLAction → RLState
  | s, [] => s
  | s, .tick :: rest => rlExec { s with now := s.now + 1 } rest
  | s, .work i :: rest =>
    match rlTaskStep s i with
    | some s2 => rlExec s2 rest
    | none => rlExec s rest

/-- The claimed bound: consecutive upstream requests are at least the
minimum interval apart. -/
def requestsSpaced (requests : List Nat) : Prop :=
  requests.Chain' fun a b => a + minInterval ≤ b

/-- Initial state: `LAST_REQUEST_TIME = None` and `n` concurrent
invocations about to execute line 49. -/
def rlInit (n : Nat) : RLState :=
  { now := 0, last := none, tasks := List.replicate n .start, requests := [] }

/-- A legal cooperative schedule of three concurrent invocations: task 0
stamps and requests at time 0; tasks 1 and 2 both read the stamp 0, both
sleep until time 1, and on waking both stamp and request at time 1. -/
def rlBadTrace : List RLAction :=
  [.work 0, .work 1, .work 2, .work 0, .tick, .work 1, .work 2, .work 1, .work 2]

/-- C5 counterexample: under the concurrent schedule `rlBadTrace` — three
invocations issued within a window of one second, shorter than
`3 × minInterval` — the tool issues upstream requests at times 0, 1 and 1:
two consecutive upstream requests zero seconds apart, violating the claimed
bound for concurrent callers. -/
theorem c5_concurrent_schedule_violates_spacing :
    (rlExec (rlInit 3) rlBadTrace).requests = [0, 1, 1] ∧
    ¬requestsSpaced (rlExec (rlInit 3) rlBadTrace).requests ∧
    (rlExec (rlInit 3) rlBadTrace).now = 1 := by
  refine ⟨rfl, ?_, rfl⟩
  intro h
  have h2 : requestsSpaced [0, 1, 1] := by
    have he : (rlExec (rlInit 3) rlBadTrace).requests = [0, 1, 1] := rfl
    rwa [he] at h
  simp [requestsSpaced, minInterval, RATE_LIMIT] at h2

/-- Lines 49-53 for one sequential (non-overlapping) invocation: given the
stored `LAST_REQUEST_TIME` and the time the invocation reaches line 49,
the time at which line 53 stamps the new `LAST_REQUEST_TIME` and the
request is issued. -/
def seqThrottle (last : Option Nat) (now : Nat) : Nat :=
  match last with
  | none => now
  | some t => if now - t < minInterval then t + minInterval else now

/-- Request times of a sequence of sequential invocations with the given
start times, threading `LAST_REQUEST_TIME`. -/
def seqRuns : Option Nat → List Nat → List Nat
  | _, [] => []
  | last, s :: rest =>
    let r := seqThrottle last s
    r :: seqRuns (some r) rest

/-- Sequential admissibility: each invocation starts no earlier than the
previous invocation's request time (invocations do not overlap). -/
def seqAdmissible : Option Nat → List Nat → Bool
  | _, [] => true
  | none, s :: rest => seqAdmissible (some (seqThrottle none s)) rest
  | some t, s :: rest =>
    decide (t ≤ s) && seqAdmissible (some (seqThrottle (some t) s)) rest

theorem seqThrottle_lower (t s : Nat) (h : t ≤ s) :
    t + minInterval ≤ seqThrottle (some t) s := by
  have hmi : minInterval = 1 := rfl
  show t + minInterval ≤ if s - t < minInterval then t + minInterval else s
  by_cases hc : s - t < minInterval
  · rw [if_pos hc]
  · rw [if_neg hc]
    rw [hmi] at hc ⊢
    omega

/-- C5 amended: for sequential (non-overlapping) invocations the bound
holds — between any two consecutive upstream requests at least
`1 / RATE_LIMIT` seconds elapse — but it does not extend to concurrent
invocations. -/
theorem c5_sequential_spacing (starts : List Nat) :
    ∀ last : Option Nat, seqAdmissible last starts = true →
      List.Chain' (fun a b => a + minInterval ≤ b) (seqRuns last starts) := by
  induction starts with
  | nil =>
    intro last _
    simp [seqRuns]
  | cons s rest ih =>
    intro last h
    have htail : seqAdmissible (some (seqThrottle last s)) rest = true := by
      cases last with
      | none => simpa [seqAdmissible] using h
      | some t => exact (by simpa [seqAdmissible] using h : _ ∧ _).2
    have hchain := ih (some (seqThrottle last s)) htail
    rw [show seqRuns last (s :: rest) =
      seqThrottle last s :: seqRuns (some (seqThrottle last s)) rest from rfl]
    refine List.chain'_cons'.2 ⟨?_, hchain⟩
    intro b hb
    cases rest with
    | nil => simp [seqRuns] at hb
    | cons s2 rest2 =>
      have hr : b = seqThrottle (some (seqThrottle last s)) s2 := by
        simp [seqRuns] at hb
        exact hb.symm
      have hle : seqThrottle last s ≤ s2 := by
        have h3 : (decide (seqThrottle last s ≤ s2) &&
            seqAdmissible (some (seqThrottle (some (seqThrottle last s)) s2)) rest2) =
            true := htail
        simp at h3
        exact h3.1
      rw [hr]
      exact seqThrottle_lower _ _ hle

/-- C5 witness: three sequential invocations starting at times 0, 0 and 5
produce requests at 0, 1 and 5, spaced at least one second apart. -/
theorem c5_sequential_spacing_witness :
    seqAdmissible none [0, 0, 5] = true ∧
    List.Chain' (fun a b => a + minInterval ≤ b) (seqRuns none [0, 0, 5]) :=
  ⟨by decide, c5_sequential_spacing [0, 0, 5] none (by decide)⟩

/-! ## ErrorContent construction (generate_dalle_image.py,
weather_us_forecast.py, weather_open_meteo_forecast.py) -/

/-- A Python keyword-argument value: an integer or a string. -/
inductive PyValue where
  | int (n : Int)
  | str (s : String)
deriving Repr, DecidableEq

/-- Modelled from the spec: construction of `simpletool.types.ErrorContent`,
which is declared by the external framework and is not under `src/`.  Spec
§3 declares exactly the fields `code: integer` and `error: string`; a
pydantic-style constructor validates its keyword arguments, so a call that
supplies no `error` field (whatever other keywords it passes) fails
validation instead of producing an item.  Returns the `(code, error)` pair
of the constructed item, or a validation error. -/
def mkErrorContent (kwargs : List (String × PyValue)) :
    Except String (Int × String) :=
  match kwargs.lookup "code", kwargs.lookup "error" with
  | some (.int c), some (.str e) => .ok (c, e)
  | _, _ => .error "validation error: Field required"

/-- The `ErrorContent(code=400, message=...)` construction of
weather_open_meteo_forecast.py lines 109-112, reached whenever neither a
city nor both coordinates are supplied. -/
def openMeteoMissingLocationItem : Except String (Int × String) :=
  mkErrorContent [("code", .int 400),
    ("message", .str "Either city or latitude/longitude must be provided")]

/-- The `ErrorContent(code=400, message=str(e))` construction of
weather_us_forecast.py line 104, reached whenever `InputModel(**arguments)`
raises. -/
def usForecastBadInputItem (msg : String) : Except String (Int × String) :=
  mkErrorContent [("code", .int 400), ("message", .str msg)]

/-- The two `ErrorContent(code=500, error=...)` constructions of
generate_dalle_image.py line 120. -/
def dallEErrorItems (msg : String) : List (Except String (Int × String)) :=
  [mkErrorContent [("code", .int 500),
    ("error", .str ("Error generating image: " ++ msg))],
   mkErrorContent [("code", .int 500), ("error", .str "An error occurred")]]

/-- C8: the error items of `DallETool.run` are built with exactly the
declared fields `code` and `error` and every `Content` value carries an
explicit variant tag — but the error items of `WeatherUSForecastTool.run`
and `WeatherOpenMeteoForecastTool.run` are built with the keyword `message`
instead of the declared field `error`, so constructing them fails
validation instead of producing a `{code, error}` item: the claim is right
about the intended data model and those two call sites are wrong. -/
theorem c8_error_content_field_mismatch :
    openMeteoMissingLocationItem = .error "validation error: Field required" ∧
    (∀ msg, usForecastBadInputItem msg =
      .error "validation error: Field required") ∧
    (∀ msg, dallEErrorItems msg =
      [.ok (500, "Error generating image: " ++ msg),
       .ok (500, "An error occurred")]) ∧
    (∀ c : Content, (∃ t, c = Content.text t) ∨
      (∃ i m, c = Content.image i m) ∨ (∃ code e, c = Content.error code e)) := by
  refine ⟨rfl, fun msg => rfl, fun msg => rfl, fun c => ?_⟩
  cases c with
  | text t => exact Or.inl ⟨t, rfl⟩
  | image i m => exact Or.inr (Or.inl ⟨i, m, rfl⟩)
  | error code e => exact Or.inr (Or.inr ⟨code, e, rfl⟩)
